import Mathlib

/-
  Verification of the review-moderation bot (src/main.py) against its
  natural-language specification.  The mutable JSON document bot_data is
  modelled as a record of association lists (Python dicts and lists), and
  each aiogram handler is translated into a pure state-transition function.
  Remote calls (forwarding, notifications, leave_chat) are modelled by an
  outcome parameter supplied by the environment.
-/

namespace ReviewBot

/-- Lookup of the first binding of a key in an association list; this is the
model of Python dict indexing and .get. -/
def dget {α β : Type} [DecidableEq α] : List (α × β) → α → Option β
  | [], _ => none
  | p :: t, k => if p.1 = k then some p.2 else dget t k

/-- Python dict assignment d[k] = v: replace the binding in place when the key
is present, otherwise append a new binding at the end. -/
def dinsert {α β : Type} [DecidableEq α] : List (α × β) → α → β → List (α × β)
  | [], k, v => [(k, v)]
  | p :: t, k, v => if p.1 = k then (k, v) :: t else p :: dinsert t k v

/-- Python dict pop(k, None): remove every binding of the key. -/
def derase {α β : Type} [DecidableEq α] (l : List (α × β)) (k : α) : List (α × β) :=
  l.filter (fun p => decide (p.1 ≠ k))

/-- The keys of an association list are pairwise distinct; every Python dict
satisfies this invariant. -/
def keysNodup {α β : Type} [DecidableEq α] (l : List (α × β)) : Prop :=
  (l.map Prod.fst).Nodup

/-- A pending review record, exactly the dict stored in
bot_data pending_reviews by process_review. -/
structure Review where
  user_id : Int
  username : Option String
  first_name : String
  text : String
  photo_file_id : Option String
deriving DecidableEq, Repr

/-- An entry of the bot_data groups list. -/
structure GroupInfo where
  id : Int
  title : String
deriving DecidableEq, Repr

/-- The bot_data settings dict. -/
structure Settings where
  reviews_locked : Bool
  review_timeout_seconds : Nat
deriving DecidableEq, Repr

/-- The whole persistent JSON document bot_data. -/
structure BotData where
  pending_reviews : List (Nat × Review)
  groups : List GroupInfo
  main_group_id : Option Int
  settings : Settings
  user_last_review_time : List (Int × Int)
deriving DecidableEq, Repr

/-- The aiogram FSM conversation state of one user: idle (no state set),
ReviewState.waiting_for_review, or AdminState.waiting_for_rejection_reason
together with its review_id_to_reject scratch datum. -/
inductive ConvState where
  | idle
  | waiting_for_review
  | waiting_for_rejection_reason (review_id_to_reject : Nat)
deriving DecidableEq, Repr

/-- Outcome of the leave_review callback handler start_review: an alert that
submissions are locked, an alert with the remaining cooldown in seconds, or
the prompt asking the user to type the review. -/
inductive StartReviewResult where
  | lockedAlert
  | cooldownAlert (remaining_seconds : Int)
  | prompt
deriving DecidableEq, Repr

/-- The start_review handler for the leave_review button.  The lock check
comes first and returns early for every caller; then the cooldown check runs
for non-administrators with a positive timeout, skipped when the stored
timestamp is absent or zero (Python truthiness of the .get result); only the
prompt branch moves the FSM into waiting_for_review.  It never mutates
bot_data. -/
def start_review (admin_id : Int) (d : BotData) (user_id : Int) (now : Int)
    (s : ConvState) : StartReviewResult × ConvState :=
  if d.settings.reviews_locked then (.lockedAlert, s)
  else if user_id ≠ admin_id ∧ 0 < d.settings.review_timeout_seconds then
    match dget d.user_last_review_time user_id with
    | none => (.prompt, .waiting_for_review)
    | some last =>
      if last ≠ 0 then
        if now - last < (d.settings.review_timeout_seconds : Int) then
          (.cooldownAlert ((d.settings.review_timeout_seconds : Int) - (now - last)), s)
        else (.prompt, .waiting_for_review)
      else (.prompt, .waiting_for_review)
  else (.prompt, .waiting_for_review)

/-- The fields of the incoming Message that process_review reads. -/
structure IncomingMessage where
  message_id : Nat
  from_user_id : Int
  from_username : Option String
  from_first_name : String
  text : Option String
  caption : Option String
  photo_file_id : Option String
deriving DecidableEq, Repr

/-- Outcome of process_review: the missing-caption error, the length error,
or acceptance of the submission. -/
inductive ProcessReviewResult where
  | captionError
  | lengthError
  | accepted
deriving DecidableEq, Repr

/-- The process_review message handler (state waiting_for_review).  The text
is the caption when a photo is attached, else the message text; an absent or
empty text is the caption error; a length outside 10..50 is the length error,
both without touching bot_data or the FSM state.  On success the review is
stored under the message id, the cooldown table is stamped with now, and the
state is cleared. -/
def process_review (d : BotData) (m : IncomingMessage) (now : Int)
    (s : ConvState) : BotData × ConvState × ProcessReviewResult :=
  let text? := if m.photo_file_id.isSome then m.caption else m.text
  match text? with
  | none => (d, s, .captionError)
  | some t =>
    if t = "" then (d, s, .captionError)
    else if ¬ (10 ≤ t.length ∧ t.length ≤ 50) then (d, s, .lengthError)
    else
      ({ d with
           pending_reviews := dinsert d.pending_reviews m.message_id
             { user_id := m.from_user_id
               username := m.from_username
               first_name := m.from_first_name
               text := t
               photo_file_id := m.photo_file_id }
           user_last_review_time :=
             dinsert d.user_last_review_time m.from_user_id now },
       .idle, .accepted)

/-- Outcome of the try block of approval, supplied by the environment.  The
block runs three remote calls in sequence: forward_message to the main
group, the approval notification to the submitter, and the administrator
callback answer; the first call that raises aborts the block and its error
reaches the single except handler. -/
inductive PublishOutcome where
  | allOk
  | forwardFailed (err : String)
  | submitterNotifyFailed (err : String)
  | answerFailed (err : String)
deriving DecidableEq, Repr

/-- Outcome of approve_review. -/
inductive ApproveResult where
  | alreadyProcessed
  | approvedNoTarget
  | approvedAndForwarded
  | publishFailedRolledBack (err : String)
deriving DecidableEq, Repr

/-- The approve handler.  It clears the FSM state, pops the review; when the
review is gone it only alerts; with no main group it leaves the review
removed and notifies; otherwise it runs the try block, and on any error
raised inside it — the forward itself, the subsequent submitter
notification, or the callback answer, even after the forward already
succeeded — the except handler re-inserts the popped review under the same
id. -/
def approve_review (d : BotData) (review_id : Nat) (po : PublishOutcome) :
    BotData × ConvState × ApproveResult :=
  match dget d.pending_reviews review_id with
  | none => (d, .idle, .alreadyProcessed)
  | some review =>
    let rest := derase d.pending_reviews review_id
    match d.main_group_id with
    | none => ({ d with pending_reviews := rest }, .idle, .approvedNoTarget)
    | some _ =>
      match po with
      | .allOk =>
        ({ d with pending_reviews := rest }, .idle, .approvedAndForwarded)
      | .forwardFailed e =>
        ({ d with pending_reviews := dinsert rest review_id review },
         .idle, .publishFailedRolledBack e)
      | .submitterNotifyFailed e =>
        ({ d with pending_reviews := dinsert rest review_id review },
         .idle, .publishFailedRolledBack e)
      | .answerFailed e =>
        ({ d with pending_reviews := dinsert rest review_id review },
         .idle, .publishFailedRolledBack e)

/-- Result of the best-effort notification to the submitter, supplied by the
environment; a failure is suppressed by the handler. -/
inductive NotifyOutcome where
  | delivered
  | failed
deriving DecidableEq, Repr

/-- Outcome of the two rejection handlers. -/
inductive RejectResult where
  | alreadyProcessed
  | rejected
deriving DecidableEq, Repr

/-- The reject_final_noreason callback handler: clear the FSM state, pop the
review; the notification outcome is suppressed and never influences the
stored data. -/
def reject_final_noreason (d : BotData) (review_id : Nat) (nt : NotifyOutcome) :
    BotData × ConvState × RejectResult :=
  match dget d.pending_reviews review_id with
  | none => (d, .idle, .alreadyProcessed)
  | some _ =>
    ({ d with pending_reviews := derase d.pending_reviews review_id },
     .idle, .rejected)

/-- The process_rejection_reason message handler (state
waiting_for_rejection_reason): pop the review recorded in the scratch data,
clear the FSM state; the notification with the reason is best-effort and
never influences the stored data. -/
def process_rejection_reason (d : BotData) (review_id : Nat) (reason : String)
    (nt : NotifyOutcome) : BotData × ConvState × RejectResult :=
  match dget d.pending_reviews review_id with
  | none => (d, .idle, .alreadyProcessed)
  | some _ =>
    ({ d with pending_reviews := derase d.pending_reviews review_id },
     .idle, .rejected)

/-- FSM effect of show_pending_reviews: it calls state.clear() on entry. -/
def show_pending_reviews_conv (s : ConvState) : ConvState := .idle

/-- FSM effect of show_my_groups: the handler takes no FSMContext argument
and performs no state operation, so the conversation state is untouched. -/
def show_my_groups_conv (s : ConvState) : ConvState := s

/-- FSM effect of admin_restrictions_menu: the handler takes no FSMContext
argument and performs no state operation, so the conversation state is
untouched. -/
def admin_restrictions_menu_conv (s : ConvState) : ConvState := s

/-- The set_timeout callback handler: writes the chosen number of seconds
into the settings immediately. -/
def set_timeout (d : BotData) (seconds : Nat) : BotData :=
  { d with settings := { d.settings with review_timeout_seconds := seconds } }

/-- The final_lock_unlock callback handler: writes the lock flag. -/
def final_lock_unlock (d : BotData) (is_locking : Bool) : BotData :=
  { d with settings := { d.settings with reviews_locked := is_locking } }

/-- Split a character list at every occurrence of the separator, the model of
the Python str.split used on callback payloads. -/
def splitOnChar (c : Char) : List Char → List (List Char)
  | [] => [[]]
  | x :: xs =>
    match splitOnChar c xs with
    | [] => if x = c then [[], []] else [[x]]
    | r :: rs => if x = c then [] :: r :: rs else (x :: r) :: rs

/-- Parse a run of decimal digits, the model of Python int(). -/
def digitsToNatAux : List Char → Nat → Option Nat
  | [], acc => some acc
  | c :: cs, acc =>
    if '0' ≤ c ∧ c ≤ '9' then
      digitsToNatAux cs (acc * 10 + (c.toNat - Char.toNat '0'))
    else none

/-- Parse a nonempty all-digit character list into a number. -/
def parseNat : List Char → Option Nat
  | [] => none
  | c :: cs => digitsToNatAux (c :: cs) 0

/-- The last segment of callback.data split on the underscore, the model of
callback.data.split with index -1. -/
def callbackLastSegment (payload : String) : List Char :=
  (splitOnChar '_' payload.toList).getLastD []

/-- Dispatch of the callback payloads of the restriction menus, following the
aiogram filters registered in the source: a payload starting with the
set_timeout marker runs set_timeout at once; confirm_lock and confirm_unlock
only render the confirmation menu and change nothing; the two final payloads
run final_lock_unlock. -/
def dispatch_restrictions (d : BotData) (payload : String) : BotData :=
  if payload.toList.take 12 = "set_timeout_".toList then
    match parseNat (callbackLastSegment payload) with
    | some s => set_timeout d s
    | none => d
  else if payload = "confirm_lock" ∨ payload = "confirm_unlock" then d
  else if payload = "final_заблокировать" then final_lock_unlock d true
  else if payload = "final_разблокировать" then final_lock_unlock d false
  else d

/-- The callback payloads carried by the four preset buttons of the
restrictions_timeout_menu keyboard. -/
def restrictions_timeout_menu_payloads : List String :=
  ["set_timeout_86400", "set_timeout_172800", "set_timeout_604800", "set_timeout_0"]

/-- The chat.type values distinguished by on_chat_member_updated. -/
inductive ChatTypeKind where
  | group
  | supergroup
  | privateChat
  | channel
deriving DecidableEq, Repr

/-- The my_chat_member handler: non-group chat types return at once; an
administrator or member status adds the chat to the registry when absent; a
left or kicked status removes it when present and clears main_group_id when
it pointed at this chat. -/
def on_chat_member_updated (d : BotData) (ctype : ChatTypeKind) (chat_id : Int)
    (new_status : String) (title : String) : BotData :=
  if ctype ≠ ChatTypeKind.group ∧ ctype ≠ ChatTypeKind.supergroup then d
  else
    let is_in_list := d.groups.any (fun g => decide (g.id = chat_id))
    if (new_status = "administrator" ∨ new_status = "member") ∧ is_in_list = false then
      { d with groups := d.groups ++ [{ id := chat_id, title := title }] }
    else if (new_status = "left" ∨ new_status = "kicked") ∧ is_in_list = true then
      { d with
          groups := d.groups.filter (fun g => decide (g.id ≠ chat_id))
          main_group_id :=
            if d.main_group_id = some chat_id then none else d.main_group_id }
    else d

/-- Result of the remote leave_chat call, supplied by the environment. -/
inductive LeaveOutcome where
  | ok
  | failed (err : String)
deriving DecidableEq, Repr

/-- The delete_and_leave_group callback handler: it only issues the remote
leave_chat call and answers with a success or failure alert, then re-renders
the group list; it never touches bot_data. -/
def delete_and_leave_group (d : BotData) (group_id : Int) (lv : LeaveOutcome) :
    BotData × String :=
  match lv with
  | .ok => (d, "Бот покинул группу.")
  | .failed e => (d, "❌ Ошибка при выходе: " ++ e)

/-- Sample pending review of user 10. -/
def rSample : Review :=
  { user_id := 10, username := some "alice", first_name := "Alice",
    text := "Great service, loved it!", photo_file_id := none }

/-- Second sample pending review, of user 20, with a photo. -/
def rOther : Review :=
  { user_id := 20, username := none, first_name := "Bob",
    text := "Nice helpful bot today", photo_file_id := some "photoA" }

/-- The default-populated empty document produced by load_data. -/
def dDefault : BotData :=
  { pending_reviews := [], groups := [], main_group_id := none,
    settings := { reviews_locked := false, review_timeout_seconds := 0 },
    user_last_review_time := [] }

/-- Sample document: two pending reviews, one tracked group set as publish
target, a one-day cooldown, and cooldown stamps for users 10 and 42. -/
def dPending : BotData :=
  { pending_reviews := [(1, rSample), (2, rOther)]
    groups := [{ id := -100, title := "Target" }]
    main_group_id := some (-100)
    settings := { reviews_locked := false, review_timeout_seconds := 86400 }
    user_last_review_time := [(10, 500), (42, 500)] }

/-- Same document with no publish target designated. -/
def dNoTarget : BotData := { dPending with main_group_id := none }

/-- Same document with the global submission lock engaged. -/
def dLocked : BotData :=
  { dPending with
      settings := { reviews_locked := true, review_timeout_seconds := 86400 } }

/-- A valid 24-character text submission from user 10. -/
def mOk : IncomingMessage :=
  { message_id := 7, from_user_id := 10, from_username := some "alice",
    from_first_name := "Alice", text := some "Great service, loved it!",
    caption := none, photo_file_id := none }

/-- A 9-character text submission, below the minimum length. -/
def mShort : IncomingMessage :=
  { mOk with text := some "too short" }

/-- A valid submission from user 20 whose platform message id collides with
the key of the pending review of user 10 in dPending. -/
def mCollide : IncomingMessage :=
  { message_id := 1, from_user_id := 20, from_username := some "bob",
    from_first_name := "Bob", text := some "Another nice review!",
    caption := none, photo_file_id := none }

theorem dget_dinsert_self {α β : Type} [DecidableEq α]
    (l : List (α × β)) (k : α) (v : β) :
    dget (dinsert l k v) k = some v := by
  induction l with
  | nil => simp [dget, dinsert]
  | cons p t ih =>
    by_cases h : p.1 = k <;> simp [dget, dinsert, h, ih]

theorem dget_dinsert_ne {α β : Type} [DecidableEq α]
    (l : List (α × β)) (k j : α) (v : β) (h : j ≠ k) :
    dget (dinsert l k v) j = dget l j := by
  have hkj : ¬ k = j := fun hc => h hc.symm
  induction l with
  | nil => simp [dget, dinsert, hkj]
  | cons p t ih =>
    by_cases hp : p.1 = k
    · have hpj : ¬ p.1 = j := by rw [hp]; exact hkj
      rw [show dinsert (p :: t) k v = (k, v) :: t from by simp [dinsert, hp]]
      simp [dget, hkj, hpj]
    · rw [show dinsert (p :: t) k v = p :: dinsert t k v from by simp [dinsert, hp]]
      by_cases hj : p.1 = j
      · simp [dget, hj]
      · simp [dget, hj, ih]

theorem dget_derase_self {α β : Type} [DecidableEq α]
    (l : List (α × β)) (k : α) :
    dget (derase l k) k = none := by
  induction l with
  | nil => simp [dget, derase]
  | cons p t ih =>
    by_cases h : p.1 = k
    · simpa [derase, List.filter_cons, h] using ih
    · simpa [derase, List.filter_cons, h, dget] using ih

theorem dget_derase_ne {α β : Type} [DecidableEq α]
    (l : List (α × β)) (k j : α) (h : j ≠ k) :
    dget (derase l k) j = dget l j := by
  induction l with
  | nil => rfl
  | cons p t ih =>
    by_cases hp : p.1 = k
    · have hpj : ¬ p.1 = j := by rw [hp]; exact fun hc => h hc.symm
      rw [show derase (p :: t) k = derase t k from by
            simp [derase, List.filter_cons, hp]]
      rw [ih]
      simp [dget, hpj]
    · rw [show derase (p :: t) k = p :: derase t k from by
            simp [derase, List.filter_cons, hp]]
      by_cases hj : p.1 = j
      · simp [dget, hj]
      · simp [dget, hj, ih]

theorem mem_keys_dinsert {α β : Type} [DecidableEq α]
    (l : List (α × β)) (k j : α) (v : β)
    (hj : j ∈ (dinsert l k v).map Prod.fst) :
    j ∈ l.map Prod.fst ∨ j = k := by
  induction l with
  | nil =>
    simp [dinsert] at hj
    exact Or.inr hj
  | cons p t ih =>
    by_cases hp : p.1 = k
    · rw [show dinsert (p :: t) k v = (k, v) :: t from by simp [dinsert, hp]] at hj
      rw [List.map_cons, List.mem_cons] at hj
      rcases hj with hj | hj
      · exact Or.inr hj
      · exact Or.inl (by rw [List.map_cons, List.mem_cons]; exact Or.inr hj)
    · rw [show dinsert (p :: t) k v = p :: dinsert t k v from by simp [dinsert, hp]] at hj
      rw [List.map_cons, List.mem_cons] at hj
      rcases hj with hj | hj
      · exact Or.inl (by rw [List.map_cons, List.mem_cons]; exact Or.inl hj)
      · rcases ih hj with hm | hm
        · exact Or.inl (by rw [List.map_cons, List.mem_cons]; exact Or.inr hm)
        · exact Or.inr hm

theorem keysNodup_dinsert {α β : Type} [DecidableEq α]
    (l : List (α × β)) (k : α) (v : β) (h : keysNodup l) :
    keysNodup (dinsert l k v) := by
  induction l with
  | nil => simp [keysNodup, dinsert]
  | cons p t ih =>
    unfold keysNodup at h ⊢
    rw [List.map_cons] at h
    rcases List.nodup_cons.mp h with ⟨hpk, ht⟩
    by_cases hp : p.1 = k
    · rw [show dinsert (p :: t) k v = (k, v) :: t from by simp [dinsert, hp]]
      rw [List.map_cons]
      exact List.nodup_cons.mpr ⟨by simpa [hp] using hpk, ht⟩
    · rw [show dinsert (p :: t) k v = p :: dinsert t k v from by simp [dinsert, hp]]
      rw [List.map_cons]
      refine List.nodup_cons.mpr ⟨?_, ih ht⟩
      intro hc
      rcases mem_keys_dinsert t k p.1 v hc with hm | hm
      · exact hpk hm
      · exact hp hm

theorem keysNodup_derase {α β : Type} [DecidableEq α]
    (l : List (α × β)) (k : α) (h : keysNodup l) :
    keysNodup (derase l k) := by
  exact List.Nodup.sublist (List.Sublist.map Prod.fst (List.filter_sublist l)) h

/-- Claim C1 counterexample: with a publish target configured, a successful
forward of review 1 followed by a failing submitter notification reaches the
single except handler, which re-inserts the review, refuting the clause that
the review stays removed whenever forwarding succeeds. -/
theorem C1_counterexample :
    dPending.main_group_id = some (-100) ∧
    (approve_review dPending 1 (PublishOutcome.submitterNotifyFailed "blocked")).2.2 =
      ApproveResult.publishFailedRolledBack "blocked" ∧
    dget (approve_review dPending 1 (PublishOutcome.submitterNotifyFailed "blocked")).1.pending_reviews 1 =
      some rSample := by
  decide

/-- Claim C1 amended: approving a pending review removes it from the pending
set; with no publish target it stays removed; with a configured target it
stays removed only when all three remote calls of the try block succeed, and
when any of them fails — the forward itself, the subsequent submitter
notification, or the callback answer, even after a successful forward — the
review is re-inserted under the same identifier with identical content, so
the pending map is unchanged as a map. -/
theorem C1_approve_rollback_on_any_publish_error (d : BotData) (i : Nat)
    (r : Review) (hp : dget d.pending_reviews i = some r) :
    (d.main_group_id = none →
      ∀ po, (approve_review d i po).2.2 = ApproveResult.approvedNoTarget ∧
        dget (approve_review d i po).1.pending_reviews i = none ∧
        ∀ j, j ≠ i →
          dget (approve_review d i po).1.pending_reviews j =
            dget d.pending_reviews j)
    ∧ (∀ g, d.main_group_id = some g →
        (approve_review d i PublishOutcome.allOk).2.2 =
          ApproveResult.approvedAndForwarded ∧
        dget (approve_review d i PublishOutcome.allOk).1.pending_reviews i = none ∧
        ∀ j, j ≠ i →
          dget (approve_review d i PublishOutcome.allOk).1.pending_reviews j =
            dget d.pending_reviews j)
    ∧ (∀ g po e, d.main_group_id = some g →
        (po = PublishOutcome.forwardFailed e ∨
         po = PublishOutcome.submitterNotifyFailed e ∨
         po = PublishOutcome.answerFailed e) →
        (approve_review d i po).2.2 = ApproveResult.publishFailedRolledBack e ∧
        dget (approve_review d i po).1.pending_reviews i = some r ∧
        ∀ j, dget (approve_review d i po).1.pending_reviews j =
          dget d.pending_reviews j) := by
  have hroll : ∀ j, dget (dinsert (derase d.pending_reviews i) i r) j =
      dget d.pending_reviews j := by
    intro j
    by_cases hj : j = i
    · subst hj
      rw [dget_dinsert_self, hp]
    · rw [dget_dinsert_ne _ _ _ _ hj, dget_derase_ne _ _ _ hj]
  refine ⟨?_, ?_, ?_⟩
  · intro hm po
    simp only [approve_review, hp, hm]
    exact ⟨trivial, dget_derase_self _ _, fun j hj => dget_derase_ne _ _ _ hj⟩
  · intro g hm
    simp only [approve_review, hp, hm]
    exact ⟨trivial, dget_derase_self _ _, fun j hj => dget_derase_ne _ _ _ hj⟩
  · intro g po e hm hpo
    rcases hpo with hpo | hpo | hpo <;> subst hpo <;>
      simp only [approve_review, hp, hm] <;>
      exact ⟨trivial, dget_dinsert_self _ _ _, hroll⟩

/-- Claim C1 amended witness: in the sample document, a failed submitter
notification after a successful forward restores review 1 intact, a failed
forward restores it likewise, a fully successful publish leaves it removed
with review 2 untouched, and so does approval without a publish target. -/
theorem C1_witness :
    dget (approve_review dPending 1 (PublishOutcome.submitterNotifyFailed "blocked")).1.pending_reviews 1 =
      some rSample ∧
    dget (approve_review dPending 1 (PublishOutcome.forwardFailed "network")).1.pending_reviews 1 =
      some rSample ∧
    dget (approve_review dPending 1 PublishOutcome.allOk).1.pending_reviews 1 = none ∧
    dget (approve_review dPending 1 PublishOutcome.allOk).1.pending_reviews 2 =
      some rOther ∧
    dget (approve_review dNoTarget 1 PublishOutcome.allOk).1.pending_reviews 1 = none := by
  have h1 := C1_approve_rollback_on_any_publish_error dPending 1 rSample (by decide)
  have h2 := C1_approve_rollback_on_any_publish_error dNoTarget 1 rSample (by decide)
  refine ⟨(h1.2.2 (-100) _ "blocked" rfl (Or.inr (Or.inl rfl))).2.1,
    (h1.2.2 (-100) _ "network" rfl (Or.inl rfl)).2.1,
    (h1.2.1 (-100) rfl).2.1, ?_, (h2.1 rfl PublishOutcome.allOk).2.1⟩
  rw [(h1.2.1 (-100) rfl).2.2 2 (by decide)]
  decide

/-- Claim C2: rejecting a pending review through either path removes it from
the pending set, leaves every other entry untouched, and never re-inserts it,
whatever the outcome of the best-effort notification to the submitter. -/
theorem C2_reject_removes_never_reinserts (d : BotData) (i : Nat) (r : Review)
    (reason : String) (hp : dget d.pending_reviews i = some r) :
    ∀ nt : NotifyOutcome,
      ((reject_final_noreason d i nt).2.2 = RejectResult.rejected ∧
       dget (reject_final_noreason d i nt).1.pending_reviews i = none ∧
       ∀ j, j ≠ i →
         dget (reject_final_noreason d i nt).1.pending_reviews j =
           dget d.pending_reviews j)
      ∧
      ((process_rejection_reason d i reason nt).2.2 = RejectResult.rejected ∧
       dget (process_rejection_reason d i reason nt).1.pending_reviews i = none ∧
       ∀ j, j ≠ i →
         dget (process_rejection_reason d i reason nt).1.pending_reviews j =
           dget d.pending_reviews j) := by
  intro nt
  constructor
  · simp only [reject_final_noreason, hp]
    exact ⟨trivial, dget_derase_self _ _, fun j hj => dget_derase_ne _ _ _ hj⟩
  · simp only [process_rejection_reason, hp]
    exact ⟨trivial, dget_derase_self _ _, fun j hj => dget_derase_ne _ _ _ hj⟩

/-- Claim C2 witness: in the sample document, rejecting review 1 with a
failing notification removes it on both paths and keeps review 2. -/
theorem C2_witness :
    dget (reject_final_noreason dPending 1 NotifyOutcome.failed).1.pending_reviews 1 =
      none ∧
    dget (process_rejection_reason dPending 1 "spam" NotifyOutcome.failed).1.pending_reviews 1 =
      none ∧
    dget (reject_final_noreason dPending 1 NotifyOutcome.failed).1.pending_reviews 2 =
      some rOther := by
  have h := C2_reject_removes_never_reinserts dPending 1 rSample "spam" (by decide)
  refine ⟨(h NotifyOutcome.failed).1.2.1, (h NotifyOutcome.failed).2.2.1, ?_⟩
  rw [(h NotifyOutcome.failed).1.2.2 2 (by decide)]
  decide

/-- Claim C3: a submitted review text of length between 10 and 50 inclusive
is accepted, the pending record with exactly that content is created under
the message id, the cooldown is stamped and the state cleared; a text of
length at most 9 or at least 51 is rejected with a user-visible error and
bot_data and the conversation state are unchanged. -/
theorem C3_length_validation (d : BotData) (m : IncomingMessage) (now : Int)
    (s : ConvState) (t : String)
    (ht : (if m.photo_file_id.isSome then m.caption else m.text) = some t) :
    (10 ≤ t.length ∧ t.length ≤ 50 →
      (process_review d m now s).2.2 = ProcessReviewResult.accepted ∧
      dget (process_review d m now s).1.pending_reviews m.message_id =
        some { user_id := m.from_user_id, username := m.from_username,
               first_name := m.from_first_name, text := t,
               photo_file_id := m.photo_file_id } ∧
      dget (process_review d m now s).1.user_last_review_time m.from_user_id =
        some now ∧
      (process_review d m now s).2.1 = ConvState.idle)
    ∧ (t.length ≤ 9 ∨ 51 ≤ t.length →
      (process_review d m now s).2.2 ≠ ProcessReviewResult.accepted ∧
      (process_review d m now s).1 = d ∧
      (process_review d m now s).2.1 = s) := by
  constructor
  · rintro ⟨h10, h50⟩
    have hne : ¬ t = "" := by
      intro h
      subst h
      exact absurd h10 (by decide)
    have hlen : ¬ ¬ (10 ≤ t.length ∧ t.length ≤ 50) := not_not_intro ⟨h10, h50⟩
    simp only [process_review, ht, if_neg hne, if_neg hlen]
    exact ⟨trivial, dget_dinsert_self _ _ _, dget_dinsert_self _ _ _, trivial⟩
  · intro hbad
    by_cases hemp : t = ""
    · simp only [process_review, ht, if_pos hemp]
      exact ⟨by decide, trivial, trivial⟩
    · have hlen : ¬ (10 ≤ t.length ∧ t.length ≤ 50) := by
        rcases hbad with h | h
        · exact fun hc => by omega
        · exact fun hc => by omega
      simp only [process_review, ht, if_neg hemp, if_pos hlen]
      exact ⟨by decide, trivial, trivial⟩

/-- Claim C3 witness: the 24-character sample text is accepted and stored,
and the 9-character text is rejected leaving the document unchanged. -/
theorem C3_witness :
    (process_review dDefault mOk 1000 ConvState.waiting_for_review).2.2 =
      ProcessReviewResult.accepted ∧
    (process_review dDefault mShort 1000 ConvState.waiting_for_review).1 =
      dDefault ∧
    (process_review dDefault mShort 1000 ConvState.waiting_for_review).2.1 =
      ConvState.waiting_for_review := by
  have h1 := C3_length_validation dDefault mOk 1000 ConvState.waiting_for_review
    "Great service, loved it!" rfl
  have h2 := C3_length_validation dDefault mShort 1000 ConvState.waiting_for_review
    "too short" rfl
  exact ⟨(h1.1 (by decide)).1, (h2.2 (by decide)).2.1, (h2.2 (by decide)).2.2⟩

/-- Claim C4: a non-administrator with a stored last-submission time T and a
positive configured cooldown is refused strictly before T plus the cooldown,
with the remaining wait reported when submissions are unlocked, and the
conversation state does not change; the administrator never receives a
cooldown alert and, when unlocked, always gets the prompt; the cooldown
table is written only by an accepted submission and only at the entry of the
submitting user. -/
theorem C4_cooldown_enforcement (admin_id : Int) (d : BotData) (uid now T : Int)
    (s : ConvState) (m : IncomingMessage)
    (hT : dget d.user_last_review_time uid = some T) (hT0 : 0 < T) :
    (uid ≠ admin_id → 0 < d.settings.review_timeout_seconds →
      now < T + (d.settings.review_timeout_seconds : Int) →
      (start_review admin_id d uid now s).1 ≠ StartReviewResult.prompt ∧
      (start_review admin_id d uid now s).2 = s ∧
      (d.settings.reviews_locked = false →
        (start_review admin_id d uid now s).1 =
          StartReviewResult.cooldownAlert
            ((d.settings.review_timeout_seconds : Int) - (now - T))))
    ∧ (uid = admin_id →
        (∀ k, (start_review admin_id d uid now s).1 ≠
           StartReviewResult.cooldownAlert k) ∧
        (d.settings.reviews_locked = false →
          (start_review admin_id d uid now s).1 = StartReviewResult.prompt ∧
          (start_review admin_id d uid now s).2 = ConvState.waiting_for_review))
    ∧ ((process_review d m now s).2.2 ≠ ProcessReviewResult.accepted →
        (process_review d m now s).1.user_last_review_time =
          d.user_last_review_time)
    ∧ ((process_review d m now s).2.2 = ProcessReviewResult.accepted →
        dget (process_review d m now s).1.user_last_review_time m.from_user_id =
          some now ∧
        ∀ u, u ≠ m.from_user_id →
          dget (process_review d m now s).1.user_last_review_time u =
            dget d.user_last_review_time u) := by
  refine ⟨?_, ?_, ?_, ?_⟩
  · intro hna hpos hwin
    by_cases hl : d.settings.reviews_locked
    · simp [start_review, hl]
    · have hTne : T ≠ 0 := hT0.ne'
      have helapsed : now - T < (d.settings.review_timeout_seconds : Int) := by
        omega
      simp [start_review, hl, hna, hpos, hT, hTne, helapsed]
  · intro ha
    by_cases hl : d.settings.reviews_locked <;>
      simp [start_review, hl, ha]
  · intro hna
    rcases hmt : (if m.photo_file_id.isSome then m.caption else m.text) with _ | t
    · simp only [process_review, hmt]
    · by_cases hemp : t = ""
      · simp only [process_review, hmt, if_pos hemp]
      · by_cases hlen : 10 ≤ t.length ∧ t.length ≤ 50
        · exact absurd (by simp only [process_review, hmt, if_neg hemp,
            if_neg (not_not_intro hlen)]) hna
        · simp only [process_review, hmt, if_neg hemp, if_pos hlen]
  · intro hacc
    rcases hmt : (if m.photo_file_id.isSome then m.caption else m.text) with _ | t
    · exact absurd hacc (by simp only [process_review, hmt]; decide)
    · by_cases hemp : t = ""
      · exact absurd hacc (by simp only [process_review, hmt, if_pos hemp]; decide)
      · by_cases hlen : 10 ≤ t.length ∧ t.length ≤ 50
        · simp only [process_review, hmt, if_neg hemp, if_neg (not_not_intro hlen)]
          exact ⟨dget_dinsert_self _ _ _, fun u hu => dget_dinsert_ne _ _ _ _ hu⟩
        · exact absurd hacc (by
            simp only [process_review, hmt, if_neg hemp, if_pos hlen]; decide)

/-- Claim C4 witness: with a one-day cooldown, user 10 who submitted at time
500 is refused at time 1000 with 85900 seconds remaining, administrator 42 is
prompted despite an identical stamp, and an accepted submission stamps the
table for its submitter. -/
theorem C4_witness :
    (start_review 42 dPending 10 1000 ConvState.idle).1 =
      StartReviewResult.cooldownAlert 85900 ∧
    (start_review 42 dPending 42 1000 ConvState.idle).1 =
      StartReviewResult.prompt ∧
    dget (process_review dPending mOk 1000 ConvState.waiting_for_review).1.user_last_review_time 10 =
      some 1000 := by
  have h1 := C4_cooldown_enforcement 42 dPending 10 1000 500 ConvState.idle mOk
    (by decide) (by decide)
  have h2 := C4_cooldown_enforcement 42 dPending 42 1000 500 ConvState.idle mOk
    (by decide) (by decide)
  refine ⟨?_, ((h2.2.1 rfl).2 rfl).1, (h1.2.2.2 (by decide)).1⟩
  have h := (h1.1 (by decide) (by decide) (by decide)).2.2 rfl
  rw [h]
  decide

/-- Claim C5 counterexample: with the lock engaged, the administrator (id 42)
pressing leave_review receives the locked alert and does not enter
waiting_for_review, refuting the exemption the claim asserts for the
administrator. -/
theorem C5_counterexample :
    dLocked.settings.reviews_locked = true ∧
    (start_review 42 dLocked 42 1000 ConvState.idle).1 =
      StartReviewResult.lockedAlert ∧
    (start_review 42 dLocked 42 1000 ConvState.idle).2 ≠
      ConvState.waiting_for_review := by
  decide

/-- Claim C5 amended: while the lock is engaged, every submission attempt by
every user, the administrator included, gets the locked alert and the
conversation state is unchanged, so an attempt made outside
waiting_for_review never enters it; unlocking clears the flag. -/
theorem C5_lock_blocks_all (admin_id : Int) (d : BotData) (uid now : Int)
    (s : ConvState) (hl : d.settings.reviews_locked = true)
    (hs : s ≠ ConvState.waiting_for_review) :
    (start_review admin_id d uid now s).1 = StartReviewResult.lockedAlert ∧
    (start_review admin_id d uid now s).2 ≠ ConvState.waiting_for_review ∧
    (final_lock_unlock d false).settings.reviews_locked = false := by
  refine ⟨by simp [start_review, hl], ?_, rfl⟩
  simpa [start_review, hl] using hs

/-- Claim C5 amended witness: a non-administrator is blocked the same way
while the lock is engaged. -/
theorem C5_witness :
    (start_review 42 dLocked 10 1000 ConvState.idle).1 =
      StartReviewResult.lockedAlert :=
  (C5_lock_blocks_all 42 dLocked 10 1000 ConvState.idle (by decide) (by decide)).1

/-- Claim C6 counterexample: the set_timeout_86400 payload is carried by a
preset button of the timeout menu, and dispatching that initial selection
event already changes the cooldown value from 0 to 86400 seconds, with no
confirmation step in between. -/
theorem C6_counterexample :
    "set_timeout_86400" ∈ restrictions_timeout_menu_payloads ∧
    dDefault.settings.review_timeout_seconds = 0 ∧
    (dispatch_restrictions dDefault "set_timeout_86400").settings.review_timeout_seconds =
      86400 := by
  decide

/-- Claim C6 amended: only the global lock is guarded by a two-step
confirmation: the confirm_lock and confirm_unlock selection events mutate
nothing and only the final events write the flag, while each cooldown preset
selection event writes the cooldown seconds immediately without any
confirmation. -/
theorem C6_lock_confirmed_timeout_immediate (d : BotData) (secs : Nat) :
    dispatch_restrictions d "confirm_lock" = d ∧
    dispatch_restrictions d "confirm_unlock" = d ∧
    dispatch_restrictions d "final_заблокировать" = final_lock_unlock d true ∧
    dispatch_restrictions d "final_разблокировать" = final_lock_unlock d false ∧
    (final_lock_unlock d true).settings.reviews_locked = true ∧
    (final_lock_unlock d false).settings.reviews_locked = false ∧
    dispatch_restrictions d "set_timeout_86400" = set_timeout d 86400 ∧
    dispatch_restrictions d "set_timeout_172800" = set_timeout d 172800 ∧
    dispatch_restrictions d "set_timeout_604800" = set_timeout d 604800 ∧
    dispatch_restrictions d "set_timeout_0" = set_timeout d 0 ∧
    (set_timeout d secs).settings.review_timeout_seconds = secs := by
  exact ⟨rfl, rfl, rfl, rfl, rfl, rfl, rfl, rfl, rfl, rfl, rfl⟩

/-- Claim C7: a membership update for a non-group chat changes nothing; an
administrator or member status on an untracked group chat appends it to the
registry and changes nothing else; a left or kicked status on a tracked
group chat removes it from the registry and clears the publish target
exactly when it pointed at that chat. -/
theorem C7_membership_tracking (d : BotData) (ct : ChatTypeKind) (cid : Int)
    (st title : String) :
    ((ct = ChatTypeKind.privateChat ∨ ct = ChatTypeKind.channel) →
      on_chat_member_updated d ct cid st title = d)
    ∧ ((ct = ChatTypeKind.group ∨ ct = ChatTypeKind.supergroup) →
       (st = "administrator" ∨ st = "member") →
       d.groups.any (fun g => decide (g.id = cid)) = false →
       (on_chat_member_updated d ct cid st title).groups =
         d.groups ++ [{ id := cid, title := title }] ∧
       (on_chat_member_updated d ct cid st title).main_group_id =
         d.main_group_id ∧
       (on_chat_member_updated d ct cid st title).pending_reviews =
         d.pending_reviews ∧
       (on_chat_member_updated d ct cid st title).settings = d.settings)
    ∧ ((ct = ChatTypeKind.group ∨ ct = ChatTypeKind.supergroup) →
       (st = "left" ∨ st = "kicked") →
       d.groups.any (fun g => decide (g.id = cid)) = true →
       (on_chat_member_updated d ct cid st title).groups =
         d.groups.filter (fun g => decide (g.id ≠ cid)) ∧
       (on_chat_member_updated d ct cid st title).groups.any
         (fun g => decide (g.id = cid)) = false ∧
       (d.main_group_id = some cid →
         (on_chat_member_updated d ct cid st title).main_group_id = none) ∧
       (d.main_group_id ≠ some cid →
         (on_chat_member_updated d ct cid st title).main_group_id =
           d.main_group_id)) := by
  refine ⟨?_, ?_, ?_⟩
  · rintro (hct | hct) <;> subst hct <;> simp [on_chat_member_updated]
  · rintro hct hst hin
    have hadd : (on_chat_member_updated d ct cid st title) =
        { d with groups := d.groups ++ [{ id := cid, title := title }] } := by
      rcases hct with hct | hct <;> rcases hst with hst | hst <;>
        subst hct <;> subst hst <;>
        simp [on_chat_member_updated, hin]
    rw [hadd]
    exact ⟨rfl, rfl, rfl, rfl⟩
  · rintro hct hst hin
    have hdel : (on_chat_member_updated d ct cid st title) =
        { d with
            groups := d.groups.filter (fun g => decide (g.id ≠ cid))
            main_group_id :=
              if d.main_group_id = some cid then none else d.main_group_id } := by
      rcases hct with hct | hct <;> rcases hst with hst | hst <;>
        subst hct <;> subst hst <;>
        simp [on_chat_member_updated, hin]
    rw [hdel]
    refine ⟨rfl, ?_, ?_, ?_⟩
    · rw [List.any_eq_false]
      intro g hg
      rcases List.mem_filter.mp hg with ⟨_, hgid⟩
      simpa using of_decide_eq_true hgid
    · intro hm
      simp [hm]
    · intro hm
      simp [hm]

/-- Claim C7 witness: in the sample document, a kicked status on the target
group removes it and clears the publish target, a member status on a new
group adds it, and a private-chat update changes nothing. -/
theorem C7_witness :
    (on_chat_member_updated dPending ChatTypeKind.group (-100) "kicked" "Target").groups = [] ∧
    (on_chat_member_updated dPending ChatTypeKind.group (-100) "kicked" "Target").main_group_id = none ∧
    (on_chat_member_updated dPending ChatTypeKind.supergroup (-200) "member" "Fresh").groups =
      [{ id := -100, title := "Target" }, { id := -200, title := "Fresh" }] ∧
    on_chat_member_updated dPending ChatTypeKind.privateChat (-100) "kicked" "X" =
      dPending := by
  have h1 := C7_membership_tracking dPending ChatTypeKind.group (-100) "kicked" "Target"
  have h2 := C7_membership_tracking dPending ChatTypeKind.supergroup (-200) "member" "Fresh"
  have h3 := C7_membership_tracking dPending ChatTypeKind.privateChat (-100) "kicked" "X"
  refine ⟨?_, (h1.2.2 (Or.inl rfl) (Or.inr rfl) (by decide)).2.2.1 (by decide), ?_,
    h3.1 (Or.inl rfl)⟩
  · rw [(h1.2.2 (Or.inl rfl) (Or.inr rfl) (by decide)).1]
    decide
  · rw [(h2.2.1 (Or.inr rfl) (Or.inr rfl) (by decide)).1]
    decide

/-- Claim C8 counterexample: review 1 of user 10 is pending, and a valid
submission by user 20 whose platform message id is also 1 is accepted and
silently replaces it: the resulting pending set holds the new review of
user 20 under key 1 and the review of user 10 is gone. -/
theorem C8_counterexample :
    dget dPending.pending_reviews 1 = some rSample ∧
    rSample.user_id = 10 ∧
    mCollide.from_user_id = 20 ∧
    (process_review dPending mCollide 2000 ConvState.waiting_for_review).2.2 =
      ProcessReviewResult.accepted ∧
    (process_review dPending mCollide 2000 ConvState.waiting_for_review).1.pending_reviews =
      [(1, { user_id := 20, username := some "bob", first_name := "Bob",
             text := "Another nice review!", photo_file_id := none }),
       (2, rOther)] := by
  decide

/-- Claim C8 amended: the pending set is a map, so distinct keys are
preserved by submission, approval and both rejection paths; an accepted
submission leaves every pending review with a different identifier
untouched, but when the platform message id collides with an existing
pending key the stored entry is silently replaced. -/
theorem C8_keys_unique_preserved (d : BotData) (m : IncomingMessage)
    (now : Int) (s : ConvState) (i : Nat) (po : PublishOutcome)
    (nt : NotifyOutcome) (reason : String)
    (hnd : keysNodup d.pending_reviews) :
    keysNodup (process_review d m now s).1.pending_reviews ∧
    keysNodup (approve_review d i po).1.pending_reviews ∧
    keysNodup (reject_final_noreason d i nt).1.pending_reviews ∧
    keysNodup (process_rejection_reason d i reason nt).1.pending_reviews ∧
    (∀ j, j ≠ m.message_id →
      dget (process_review d m now s).1.pending_reviews j =
        dget d.pending_reviews j) := by
  have hproc : ∀ j, j ≠ m.message_id →
      dget (process_review d m now s).1.pending_reviews j =
        dget d.pending_reviews j := by
    intro j hj
    rcases hmt : (if m.photo_file_id.isSome then m.caption else m.text) with _ | t
    · simp only [process_review, hmt]
    · by_cases hemp : t = ""
      · simp only [process_review, hmt, if_pos hemp]
      · by_cases hlen : 10 ≤ t.length ∧ t.length ≤ 50
        · simp only [process_review, hmt, if_neg hemp, if_neg (not_not_intro hlen)]
          exact dget_dinsert_ne _ _ _ _ hj
        · simp only [process_review, hmt, if_neg hemp, if_pos hlen]
  refine ⟨?_, ?_, ?_, ?_, hproc⟩
  · rcases hmt : (if m.photo_file_id.isSome then m.caption else m.text) with _ | t
    · simpa only [process_review, hmt] using hnd
    · by_cases hemp : t = ""
      · simpa only [process_review, hmt, if_pos hemp] using hnd
      · by_cases hlen : 10 ≤ t.length ∧ t.length ≤ 50
        · simp only [process_review, hmt, if_neg hemp, if_neg (not_not_intro hlen)]
          exact keysNodup_dinsert _ _ _ hnd
        · simpa only [process_review, hmt, if_neg hemp, if_pos hlen] using hnd
  · rcases hg : dget d.pending_reviews i with _ | r
    · simpa only [approve_review, hg] using hnd
    · rcases hm : d.main_group_id with _ | g
      · simp only [approve_review, hg, hm]
        exact keysNodup_derase _ _ hnd
      · rcases po with _ | e | e | e
        · simp only [approve_review, hg, hm]
          exact keysNodup_derase _ _ hnd
        · simp only [approve_review, hg, hm]
          exact keysNodup_dinsert _ _ _ (keysNodup_derase _ _ hnd)
        · simp only [approve_review, hg, hm]
          exact keysNodup_dinsert _ _ _ (keysNodup_derase _ _ hnd)
        · simp only [approve_review, hg, hm]
          exact keysNodup_dinsert _ _ _ (keysNodup_derase _ _ hnd)
  · rcases hg : dget d.pending_reviews i with _ | r
    · simpa only [reject_final_noreason, hg] using hnd
    · simp only [reject_final_noreason, hg]
      exact keysNodup_derase _ _ hnd
  · rcases hg : dget d.pending_reviews i with _ | r
    · simpa only [process_rejection_reason, hg] using hnd
    · simp only [process_rejection_reason, hg]
      exact keysNodup_derase _ _ hnd

/-- Claim C8 amended witness: accepting the fresh message with id 7 into the
sample document keeps distinct keys and leaves reviews 1 and 2 in place. -/
theorem C8_witness :
    keysNodup (process_review dPending mOk 1000 ConvState.waiting_for_review).1.pending_reviews ∧
    dget (process_review dPending mOk 1000 ConvState.waiting_for_review).1.pending_reviews 1 =
      some rSample := by
  have h := C8_keys_unique_preserved dPending mOk 1000 ConvState.waiting_for_review
    1 PublishOutcome.allOk NotifyOutcome.delivered "unused"
    (by unfold keysNodup; decide)
  refine ⟨h.1, ?_⟩
  rw [h.2.2.2.2 1 (by decide)]
  decide

/-- Claim C9 counterexample: show_my_groups and admin_restrictions_menu take
no conversation-state action, so a user left in the middle of a multi-step
flow who navigates there keeps the stale state instead of being reset to
idle. -/
theorem C9_counterexample :
    show_my_groups_conv (ConvState.waiting_for_rejection_reason 7) =
      ConvState.waiting_for_rejection_reason 7 ∧
    admin_restrictions_menu_conv ConvState.waiting_for_review =
      ConvState.waiting_for_review ∧
    ConvState.waiting_for_rejection_reason 7 ≠ ConvState.idle ∧
    ConvState.waiting_for_review ≠ ConvState.idle := by
  decide

/-- Claim C9 amended: show_pending_reviews and the moderation handlers reset
the conversation state to idle on entry, but show_my_groups and
admin_restrictions_menu take no FSM context and leave the conversation state
exactly as it was. -/
theorem C9_state_reset_partial (s : ConvState) (d : BotData) (i : Nat)
    (po : PublishOutcome) (nt : NotifyOutcome) :
    show_pending_reviews_conv s = ConvState.idle ∧
    (approve_review d i po).2.1 = ConvState.idle ∧
    (reject_final_noreason d i nt).2.1 = ConvState.idle ∧
    show_my_groups_conv s = s ∧
    admin_restrictions_menu_conv s = s := by
  refine ⟨rfl, ?_, ?_, rfl, rfl⟩
  · rcases hg : dget d.pending_reviews i with _ | r
    · simp only [approve_review, hg]
    · rcases hm : d.main_group_id with _ | g
      · simp only [approve_review, hg, hm]
      · rcases po with _ | e | e | e <;> simp only [approve_review, hg, hm]
  · rcases hg : dget d.pending_reviews i with _ | r <;>
      simp only [reject_final_noreason, hg]

/-- Claim C10: the final delete-and-leave action returns the document
untouched for every leave outcome and only reports success or the error
message; the registry entry disappears only through the separate
membership-change event. -/
theorem C10_delete_leave_frame (d : BotData) (gid : Int) (lv : LeaveOutcome)
    (e : String) (title : String) :
    (delete_and_leave_group d gid lv).1 = d ∧
    (delete_and_leave_group d gid LeaveOutcome.ok).2 = "Бот покинул группу." ∧
    (delete_and_leave_group d gid (LeaveOutcome.failed e)).2 =
      "❌ Ошибка при выходе: " ++ e ∧
    (d.groups.any (fun g => decide (g.id = gid)) = true →
      (on_chat_member_updated d ChatTypeKind.group gid "left" title).groups =
        d.groups.filter (fun g => decide (g.id ≠ gid))) := by
  refine ⟨?_, rfl, rfl, ?_⟩
  · rcases lv with _ | e2 <;> rfl
  · intro hin
    simp [on_chat_member_updated, hin]

/-- Claim C10 witness: a failed leave call on the sample document changes
nothing, while the subsequent left membership event is what removes the
group. -/
theorem C10_witness :
    (delete_and_leave_group dPending (-100) (LeaveOutcome.failed "forbidden")).1 =
      dPending ∧
    (on_chat_member_updated dPending ChatTypeKind.group (-100) "left" "Target").groups =
      [] := by
  have h := C10_delete_leave_frame dPending (-100) (LeaveOutcome.failed "forbidden")
    "forbidden" "Target"
  refine ⟨h.1, ?_⟩
  rw [h.2.2.2 (by decide)]
  decide

end ReviewBot
